import Mathlib

/-!
Shallow embedding of the mouce repository's uinput backend
(`src/nix/uinput.rs`) and evdev listener/dispatcher (`src/nix/mod.rs`),
with theorems settling the frozen claims about them.

Machine integers are modelled as `Nat` (for the u16 `type`/`code` fields
and non-negative constants) and `Int` (for the signed i32 `value` field
and the signed return of `write`); no overflow occurs in the modelled
paths since every constant fits comfortably in the source types.
-/

namespace Mouce

/-! Numeric event-type / code constants from `src/nix/uinput.rs` lines 303-322. -/

def EV_SYN : Nat := 0x00
def EV_KEY : Nat := 0x01
def EV_REL : Nat := 0x02
def EV_ABS : Nat := 0x03
def REL_X : Nat := 0x00
def REL_Y : Nat := 0x01
def ABS_X : Nat := 0x00
def ABS_Y : Nat := 0x01
def REL_WHEEL : Nat := 0x08
def REL_HWHEEL : Nat := 0x06
def BTN_LEFT : Nat := 0x110
def BTN_RIGHT : Nat := 0x111
def BTN_MIDDLE : Nat := 0x112
def BTN_SIDE : Nat := 0x113
def BTN_EXTRA : Nat := 0x114
def BTN_FORWARD : Nat := 0x115
def BTN_BACK : Nat := 0x116
def BTN_TASK : Nat := 0x117
def SYN_REPORT : Nat := 0x00

/-- MouseButton from `src/common` (used by `map_btn` and the dispatcher). -/
inductive MouseButton where
  | left
  | right
  | middle
  | side
  | extra
  | forward
  | back
  | task
deriving DecidableEq, Repr

/-- ScrollDirection from `src/common`. -/
inductive ScrollDirection where
  | up
  | down
  | left
  | right
deriving DecidableEq, Repr

/-- MouseEvent from `src/common`: the semantic events produced by the dispatcher. -/
inductive MouseEvent where
  | press (b : MouseButton)
  | release (b : MouseButton)
  | relativeMove (dx dy : Int)
  | scroll (d : ScrollDirection)
deriving DecidableEq, Repr

/-- InputEvent (`src/nix/uinput.rs` lines 340-352): the fixed-layout kernel
event record. `etype` and `code` are u16 in the source, `value` is i32;
the timestamp pair is always zero on the emit path. -/
structure InputEvent where
  tvSec : Nat
  tvUsec : Nat
  etype : Nat
  code : Nat
  value : Int
deriving DecidableEq, Repr

/-- UInputMouseManager::map_btn (`src/nix/uinput.rs` lines 188-199). -/
def map_btn (button : MouseButton) : Nat :=
  match button with
  | MouseButton.left => BTN_LEFT
  | MouseButton.right => BTN_RIGHT
  | MouseButton.middle => BTN_MIDDLE
  | MouseButton.side => BTN_SIDE
  | MouseButton.extra => BTN_EXTRA
  | MouseButton.forward => BTN_FORWARD
  | MouseButton.back => BTN_BACK
  | MouseButton.task => BTN_TASK

/-- Dispatcher classification of one raw kernel event, embedded from the body
of the dispatcher loop in `start_nix_listener` (`src/nix/mod.rs` lines
139-187): `none` means the event is discarded (`continue`) and no callback
is invoked; `some ev` means `ev` is handed to every registered callback. -/
def dispatchEvent (received : InputEvent) : Option MouseEvent :=
  if received.etype = EV_KEY then
    if received.code = BTN_LEFT then
      some (if received.value = 1 then MouseEvent.press MouseButton.left
            else MouseEvent.release MouseButton.left)
    else if received.code = BTN_RIGHT then
      some (if received.value = 1 then MouseEvent.press MouseButton.right
            else MouseEvent.release MouseButton.right)
    else if received.code = BTN_MIDDLE then
      some (if received.value = 1 then MouseEvent.press MouseButton.middle
            else MouseEvent.release MouseButton.middle)
    else
      none
  else if received.etype = EV_REL then
    if received.code = REL_WHEEL then
      some (MouseEvent.scroll (if received.value > 0 then ScrollDirection.up
                               else ScrollDirection.down))
    else if received.code = REL_HWHEEL then
      some (MouseEvent.scroll (if received.value > 0 then ScrollDirection.right
                               else ScrollDirection.left))
    else if received.code = REL_X then
      some (MouseEvent.relativeMove received.value 0)
    else if received.code = REL_Y then
      some (MouseEvent.relativeMove 0 received.value)
    else
      none
  else
    none

/-- Spec-side classification, written from the words of spec §4.4: the known
buttons are an association table; a key event with a known code becomes
Press on value 1 and Release on any other value, unknown codes are
discarded; relative events map wheel / horizontal-wheel / X / Y codes as
described and discard unknown codes; all other categories are discarded. -/
def specKnownButtons : List (Nat × MouseButton) :=
  [(0x110, MouseButton.left), (0x111, MouseButton.right), (0x112, MouseButton.middle)]

/-- Spec-side classification function (refinement counterpart of `dispatchEvent`). -/
def specClassify (received : InputEvent) : Option MouseEvent :=
  if received.etype = EV_KEY then
    match specKnownButtons.lookup received.code with
    | some b => some (if received.value = 1 then MouseEvent.press b else MouseEvent.release b)
    | none => none
  else if received.etype = EV_REL then
    if received.code = REL_WHEEL then
      some (MouseEvent.scroll (if received.value > 0 then ScrollDirection.up
                               else ScrollDirection.down))
    else if received.code = REL_HWHEEL then
      some (MouseEvent.scroll (if received.value > 0 then ScrollDirection.right
                               else ScrollDirection.left))
    else if received.code = REL_X then
      some (MouseEvent.relativeMove received.value 0)
    else if received.code = REL_Y then
      some (MouseEvent.relativeMove 0 received.value)
    else
      none
  else
    none

/-- Callbacks invoked by the dispatcher for one raw event: the dispatcher
invokes every registered callback exactly when the event classifies, and
invokes none when the event is discarded (`src/nix/mod.rs` lines 189-192). -/
def dispatchInvocations {κ : Type} (callbacks : List (Nat × κ)) (received : InputEvent) :
    List Nat :=
  match dispatchEvent received with
  | some _ => callbacks.map (fun p => p.1)
  | none => []

/-! Emission model. `emit` (`src/nix/uinput.rs` lines 135-159) performs one
`write` syscall of one fixed-size `InputEvent` record. The kernel side is
modelled by an oracle `writeRet : Nat → Int` giving the (c_long) return
value of the n-th write syscall performed by the manager; the state records
how many writes happened and the full sequence of records written. -/

/-- ErrorKind of a `std::io::Error` as far as the embedded code distinguishes it. -/
inductive ErrKind where
  | other
  | notFound
deriving DecidableEq, Repr

/-- Typed error: kind plus message, as built by `Error::new` in the source. -/
structure IoError where
  kind : ErrKind
  msg : String
deriving DecidableEq, Repr

/-- State of the uinput control descriptor interaction: the index of the next
write syscall and the trace of event records handed to `write` so far. -/
structure EmuState where
  writeIdx : Nat
  trace : List InputEvent
deriving DecidableEq, Repr

/-- Fresh state: no writes performed yet. -/
def initState : EmuState := ⟨0, []⟩

/-- size_of::<InputEvent>() on 64-bit Linux: 2 × c_ulong + 2 × c_ushort + c_int. -/
def recordSize : Int := 24

/-- UInputMouseManager::emit (`src/nix/uinput.rs` lines 135-159): build one
record with zero timestamp, hand it to `write`, and fail iff the returned
byte count is -1 or differs from the record size. The attempted record is
part of the trace whether or not the write succeeds, mirroring that the
syscall is issued exactly once per call. -/
def emit (writeRet : Nat → Int) (s : EmuState) (t c : Nat) (v : Int) :
    EmuState × Except IoError Unit :=
  let s2 : EmuState := ⟨s.writeIdx + 1, s.trace ++ [⟨0, 0, t, c, v⟩]⟩
  let written := writeRet s.writeIdx
  if written = -1 ∨ written ≠ recordSize then
    (s2, Except.error ⟨ErrKind.other, "failed while trying to write to a file"⟩)
  else
    (s2, Except.ok ())

/-- Sequencing with early return, mirroring Rust's `?` operator. -/
def andThen (r : EmuState × Except IoError Unit)
    (f : EmuState → EmuState × Except IoError Unit) : EmuState × Except IoError Unit :=
  match r with
  | (s, Except.ok _) => f s
  | (s, Except.error e) => (s, Except.error e)

/-- UInputMouseManager::syncronize (`src/nix/uinput.rs` lines 162-169), name
kept as spelled in the source: emit a sync-report event (the 1 ms sleep is
real time and not part of the event model). -/
def syncronize (writeRet : Nat → Int) (s : EmuState) : EmuState × Except IoError Unit :=
  emit writeRet s EV_SYN SYN_REPORT 0

/-- UInputMouseManager::press_button (`src/nix/uinput.rs` lines 237-240). -/
def press_button (writeRet : Nat → Int) (s : EmuState) (button : MouseButton) :
    EmuState × Except IoError Unit :=
  andThen (emit writeRet s EV_KEY (map_btn button) 1) (syncronize writeRet)

/-- UInputMouseManager::release_button (`src/nix/uinput.rs` lines 242-245). -/
def release_button (writeRet : Nat → Int) (s : EmuState) (button : MouseButton) :
    EmuState × Except IoError Unit :=
  andThen (emit writeRet s EV_KEY (map_btn button) 0) (syncronize writeRet)

/-- UInputMouseManager::click_button (`src/nix/uinput.rs` lines 247-250):
press then release, the `?` propagating a press failure before any
release is attempted. -/
def click_button (writeRet : Nat → Int) (s : EmuState) (button : MouseButton) :
    EmuState × Except IoError Unit :=
  andThen (press_button writeRet s button) (fun s2 => release_button writeRet s2 button)

/-! Model of the f32 arithmetic in `move_relative_`. The source computes
`(x as f32 / 2.).ceil() as c_int`. The conversion `x as f32` rounds the
i32 to the nearest value with a 24-bit significand (ties to even); the
division by 2 only decrements the exponent and is exact for every such
value in the i32 range; `ceil` of that exact half-integer n/2 is the
integer ⌈n/2⌉, which is f32-representable (n even: it is n/2 itself;
n odd: |n| < 2^24 since all representable values of magnitude ≥ 2^24 are
even, so ⌈n/2⌉ fits in 24 bits); the final cast is exact since
|⌈n/2⌉| ≤ 2^30. So the whole expression equals ⌈roundF32 x / 2⌉. -/

/-- Fuel-bounded binary length: number of binary digits of n (0 for n = 0). -/
def bitLenAux : Nat → Nat → Nat
  | 0, _ => 0
  | fuel + 1, n => if n = 0 then 0 else bitLenAux fuel (n / 2) + 1

/-- Binary length of a Nat below 2^64. -/
def bitLen (n : Nat) : Nat := bitLenAux 64 n

/-- Round a natural number to the nearest value with a 24-bit significand,
ties to even: the magnitude part of i32-to-f32 conversion. -/
def roundF32Nat (n : Nat) : Nat :=
  let e := bitLen n - 24
  let ulp := 2 ^ e
  let q := n / ulp
  let r := n % ulp
  let q2 := if 2 * r < ulp then q
            else if ulp < 2 * r then q + 1
            else if q % 2 = 0 then q else q + 1
  q2 * ulp

/-- Value of `x as f32` for an i32 `x`, as an integer (every i32 rounds to an
integral f32 value since the rounding unit is a power of two ≥ 1). -/
def roundF32 (x : Int) : Int :=
  if x < 0 then -(roundF32Nat x.natAbs : Int) else (roundF32Nat x.natAbs : Int)

/-- Ceiling of n / 2 over the integers (round toward positive infinity);
`ceilHalf_eq_ceil` below identifies it with ⌈n / 2⌉ over ℚ. -/
def ceilHalf (n : Int) : Int := (n + 1) / 2

/-- The value emitted on a relative axis for pixel delta `x`:
`(x as f32 / 2.).ceil() as c_int` from `src/nix/uinput.rs` lines 183-184,
via the f32 model above. -/
def moveRelUnit (x : Int) : Int := ceilHalf (roundF32 x)

/-- UInputMouseManager::move_relative_ (`src/nix/uinput.rs` lines 172-186):
emit relative-X then relative-Y with the converted values, then synchronize. -/
def move_relative_ (writeRet : Nat → Int) (s : EmuState) (x y : Int) :
    EmuState × Except IoError Unit :=
  andThen (emit writeRet s EV_REL REL_X (moveRelUnit x)) (fun s1 =>
    andThen (emit writeRet s1 EV_REL REL_Y (moveRelUnit y)) (syncronize writeRet))

/-- UInputMouseManager::scroll_wheel (`src/nix/uinput.rs` lines 252-261). -/
def scroll_wheel (writeRet : Nat → Int) (s : EmuState) (direction : ScrollDirection) :
    EmuState × Except IoError Unit :=
  let p : Nat × Int :=
    match direction with
    | ScrollDirection.up => (REL_WHEEL, 1)
    | ScrollDirection.down => (REL_WHEEL, -1)
    | ScrollDirection.left => (REL_HWHEEL, -1)
    | ScrollDirection.right => (REL_HWHEEL, 1)
  andThen (emit writeRet s EV_REL p.1 p.2) (syncronize writeRet)

/-- Outcome of calling a function that may panic instead of returning. -/
inductive PanicOr (α : Type) where
  | panicked (msg : String)
  | returned (v : α)
deriving DecidableEq, Repr

/-- UInputMouseManager::get_position (`src/nix/uinput.rs` lines 231-235):
the body is `unimplemented!()`, which panics with "not implemented";
no `Ok` coordinate and no `Err` value is ever returned. -/
def get_position : PanicOr (Except IoError (Int × Int)) :=
  PanicOr.panicked "not implemented"

/-! Callback registry and listener-start model (`hook` / `unhook` /
`unhook_all`, `src/nix/uinput.rs` lines 263-288). The registry is a finite
map from ids to callbacks of an abstract type κ; `startOk : Nat → Bool`
tells whether the n-th invocation of `start_nix_listener` succeeds. -/

/-- Listener-related fields of UInputMouseManager, plus instrumentation
counting invocations of `start_nix_listener` and how many succeeded. -/
structure ListenerState (κ : Type) where
  is_listening : Bool
  callback_counter : Nat
  callbacks : List (Nat × κ)
  startCalls : Nat
  startedListeners : Nat

/-- Fields as initialized by UInputMouseManager::new (`src/nix/uinput.rs`
lines 42-44): empty registry, counter 0, not listening. -/
def initListener (κ : Type) : ListenerState κ :=
  ⟨false, 0, [], 0, 0⟩

/-- HashMap::insert on the id-keyed registry (replaces any entry at the key). -/
def mapInsert {κ : Type} (m : List (Nat × κ)) (k : Nat) (v : κ) : List (Nat × κ) :=
  (m.filter (fun p => p.1 != k)) ++ [(k, v)]

/-- UInputMouseManager::hook (`src/nix/uinput.rs` lines 263-273): start the
listener on the first call only (and remember that it started), then hand
out the current counter value as the id, insert, and bump the counter. -/
def hook {κ : Type} (startOk : Nat → Bool) (s : ListenerState κ) (cb : κ) :
    ListenerState κ × Except IoError Nat :=
  if !s.is_listening then
    if startOk s.startCalls then
      let s1 : ListenerState κ :=
        { s with startCalls := s.startCalls + 1,
                 startedListeners := s.startedListeners + 1,
                 is_listening := true }
      let id := s1.callback_counter
      ({ s1 with callbacks := mapInsert s1.callbacks id cb,
                 callback_counter := s1.callback_counter + 1 }, Except.ok id)
    else
      ({ s with startCalls := s.startCalls + 1 },
       Except.error ⟨ErrKind.other, "failed to start the listener"⟩)
  else
    let id := s.callback_counter
    ({ s with callbacks := mapInsert s.callbacks id cb,
              callback_counter := s.callback_counter + 1 }, Except.ok id)

/-- UInputMouseManager::unhook (`src/nix/uinput.rs` lines 275-283):
HashMap::remove — on a hit the entry disappears and the call succeeds,
on a miss a NotFound error carrying the id is returned. -/
def unhook {κ : Type} (s : ListenerState κ) (callback_id : Nat) :
    ListenerState κ × Except IoError Unit :=
  if s.callbacks.any (fun p => p.1 == callback_id) then
    ({ s with callbacks := s.callbacks.filter (fun p => p.1 != callback_id) }, Except.ok ())
  else
    (s, Except.error ⟨ErrKind.notFound, "callback id " ++ toString callback_id ++ " not found"⟩)

/-- UInputMouseManager::unhook_all (`src/nix/uinput.rs` lines 285-288). -/
def unhook_all {κ : Type} (s : ListenerState κ) : ListenerState κ × Except IoError Unit :=
  ({ s with callbacks := [] }, Except.ok ())

/-! Device discovery deduplication (`start_nix_listener`, `src/nix/mod.rs`
lines 64-135). The filesystem part (glob, symlink resolution) is input
here: the function below receives the canonical paths in glob-iteration
order and mirrors the `previous_paths` loop — one device open and one
reader worker per path that survives the `contains` check. -/

/-- The discovery loop over resolved canonical paths: skip a path already in
`previous_paths`, otherwise record it and start a worker for it. -/
def dedupLoop : List String → List String → List String
  | _, [] => []
  | previous_paths, path :: rest =>
    if path ∈ previous_paths then dedupLoop previous_paths rest
    else path :: dedupLoop (previous_paths ++ [path]) rest

/-- Canonical paths for which a device file is opened and a reader worker
spawned, given the resolved glob matches in order. -/
def discoveredDevices (paths : List String) : List String := dedupLoop [] paths

/-! Teardown model (`impl Drop for UInputMouseManager`, `src/nix/uinput.rs`
lines 202-210). Rust drops the struct by running the Drop body (the
UI_DEV_DESTROY ioctl) first and then dropping the fields, so the File
field's close happens strictly after the destroy ioctl; this runs no
matter what the preceding emit calls returned. -/

/-- Observable kernel-facing actions of a manager's lifetime. -/
inductive SysAction where
  | writeEv (e : InputEvent)
  | ioctlDevDestroy
  | closeFile
deriving DecidableEq, Repr

/-- Run a list of emit requests the way a `?`-chaining caller would,
stopping at the first failed write. -/
def runEmits (writeRet : Nat → Int) (s : EmuState) :
    List (Nat × Nat × Int) → EmuState
  | [] => s
  | (t, c, v) :: rest =>
    match emit writeRet s t c v with
    | (s2, Except.ok _) => runEmits writeRet s2 rest
    | (s2, Except.error _) => s2

/-- Drop body then field drop: destroy ioctl, then close of the descriptor. -/
def dropActions : List SysAction := [SysAction.ioctlDevDestroy, SysAction.closeFile]

/-- Full kernel-facing trace of a manager: the writes performed while alive
(under write oracle `writeRet`, for any sequence of emit requests), then
teardown. -/
def sessionTrace (writeRet : Nat → Int) (cmds : List (Nat × Nat × Int)) : List SysAction :=
  ((runEmits writeRet initState cmds).trace.map SysAction.writeEv) ++ dropActions

/-! Capability registration at construction (UInputMouseManager::new,
`src/nix/uinput.rs` lines 47-123): the exact sequence of uinput ioctl
requests issued, in order. -/

/-- One uinput setup ioctl request with its payload. -/
inductive IoctlReq where
  | setEvBit (ev : Nat)
  | setKeyBit (code : Nat)
  | setRelBit (code : Nat)
  | setAbsBit (code : Nat)
  | absSetup (code : Nat) (minimum maximum : Int)
  | devSetup
  | devCreate
deriving DecidableEq, Repr

/-- The ioctl sequence issued by UInputMouseManager::new for axis ranges
`rng_x`, `rng_y` (`src/nix/uinput.rs` lines 47-123). -/
def newIoctls (rng_x rng_y : Int × Int) : List IoctlReq :=
  [IoctlReq.setEvBit EV_KEY,
   IoctlReq.setKeyBit BTN_LEFT,
   IoctlReq.setKeyBit BTN_RIGHT,
   IoctlReq.setKeyBit BTN_MIDDLE,
   IoctlReq.setEvBit EV_ABS,
   IoctlReq.setAbsBit ABS_X,
   IoctlReq.absSetup ABS_X rng_x.1 rng_x.2,
   IoctlReq.setAbsBit ABS_Y,
   IoctlReq.absSetup ABS_Y rng_y.1 rng_y.2,
   IoctlReq.setEvBit EV_REL,
   IoctlReq.setRelBit REL_X,
   IoctlReq.setRelBit REL_Y,
   IoctlReq.setRelBit REL_WHEEL,
   IoctlReq.setRelBit REL_HWHEEL,
   IoctlReq.devSetup,
   IoctlReq.devCreate]

/-- Key codes for which a UI_SET_KEYBIT capability is registered. -/
def registeredKeyCodes (reqs : List IoctlReq) : List Nat :=
  reqs.filterMap (fun r => match r with
    | IoctlReq.setKeyBit c => some c
    | _ => none)

/-- All eight MouseButton variants, the domain of map_btn and of the
press/release/click operations. -/
def allButtons : List MouseButton :=
  [MouseButton.left, MouseButton.right, MouseButton.middle, MouseButton.side,
   MouseButton.extra, MouseButton.forward, MouseButton.back, MouseButton.task]

/-- Write oracle of the success path: every write syscall returns the full
record size. -/
def allWritesOk : Nat → Int := fun _ => recordSize

/-- Write oracle under which the first two writes succeed and every later
write fails: click_button's press (key write + sync write) succeeds and
its release fails at the release key write. -/
def failThirdWrite : Nat → Int := fun i => if i < 2 then recordSize else -1

/-! Helper lemmas (shared, not tied to any single claim). -/

/-- bitLenAux is bounded by any exponent bound on its argument. -/
theorem bitLenAux_le (fuel : Nat) :
    ∀ (k n : Nat), n < 2 ^ k → k ≤ fuel → bitLenAux fuel n ≤ k := by
  induction fuel with
  | zero => intro k n _ _; exact Nat.zero_le k
  | succ fuel ih =>
    intro k n hn hk
    by_cases h0 : n = 0
    · simp [bitLenAux, h0]
    · have hk1 : 1 ≤ k := by
        rcases Nat.eq_zero_or_pos k with rfl | hp
        · norm_num at hn; omega
        · exact hp
      have hdiv : n / 2 < 2 ^ (k - 1) := by
        have h2 : 2 ^ (k - 1) * 2 = 2 ^ k := by
          rw [← pow_succ]
          congr 1
          omega
        rw [Nat.div_lt_iff_lt_mul (by norm_num : 0 < 2), h2]
        exact hn
      have hrec := ih (k - 1) (n / 2) hdiv (by omega)
      have hstep : bitLenAux (fuel + 1) n = bitLenAux fuel (n / 2) + 1 := by
        simp [bitLenAux, h0]
      omega

/-- Below 2^24 (24 significand bits) the f32 rounding of a magnitude is exact. -/
theorem roundF32Nat_exact (n : Nat) (h : n ≤ 2 ^ 24) : roundF32Nat n = n := by
  rcases Nat.lt_or_ge n (2 ^ 24) with hlt | hge
  · have hbl : bitLen n ≤ 24 := bitLenAux_le 64 24 n hlt (by norm_num)
    have he : bitLen n - 24 = 0 := Nat.sub_eq_zero_of_le hbl
    unfold roundF32Nat
    rw [he]
    norm_num [Nat.mod_one]
  · have heq : n = 2 ^ 24 := Nat.le_antisymm h hge
    subst heq
    decide

/-- i32-to-f32 conversion is exact on the 24-bit range. -/
theorem roundF32_exact (x : Int) (h : x.natAbs ≤ 2 ^ 24) : roundF32 x = x := by
  unfold roundF32
  rw [roundF32Nat_exact x.natAbs h]
  split <;> omega

/-- ceilHalf is the true ceiling of halving over ℚ. -/
theorem ceilHalf_eq_ceil (n : Int) : ceilHalf n = ⌈(n : ℚ) / 2⌉ := by
  unfold ceilHalf
  rw [eq_comm, Int.ceil_eq_iff]
  have h1 : n ≥ 2 * ((n + 1) / 2) - 1 := by omega
  have h3 : n ≤ 2 * ((n + 1) / 2) := by omega
  qify at h1 h3
  constructor
  · linarith
  · linarith


/-- C1 (amended): on the success path, for every pixel delta pair whose
magnitudes are at most 2^24 (the range on which the i32-to-f32 conversion
inside move_relative_ is exact), move_relative_ emits a relative-X event
whose value is ⌈dx / 2⌉ and a relative-Y event whose value is ⌈dy / 2⌉
(round toward positive infinity), followed by one sync-report event. -/
theorem move_relative_emits_ceiling_halves (x y : Int)
    (hx : x.natAbs ≤ 2 ^ 24) (hy : y.natAbs ≤ 2 ^ 24) :
    (move_relative_ allWritesOk initState x y).1.trace =
        [⟨0, 0, EV_REL, REL_X, ⌈(x : ℚ) / 2⌉⟩,
         ⟨0, 0, EV_REL, REL_Y, ⌈(y : ℚ) / 2⌉⟩,
         ⟨0, 0, EV_SYN, SYN_REPORT, 0⟩] ∧
      (move_relative_ allWritesOk initState x y).2 = Except.ok () := by
  have hux : moveRelUnit x = ⌈(x : ℚ) / 2⌉ := by
    unfold moveRelUnit
    rw [roundF32_exact x hx, ceilHalf_eq_ceil]
  have huy : moveRelUnit y = ⌈(y : ℚ) / 2⌉ := by
    unfold moveRelUnit
    rw [roundF32_exact y hy, ceilHalf_eq_ceil]
  constructor <;>
    simp [move_relative_, andThen, emit, syncronize, allWritesOk, recordSize,
          initState, hux, huy]

/-- C1 witness: at (dx, dy) = (-3, 3) the emitted values are -1 and 2 —
ceiling semantics at a negative odd delta rounds toward positive
infinity, and the success path ends with a sync-report. -/
theorem move_relative_emits_ceiling_halves_witness :
    (move_relative_ allWritesOk initState (-3) 3).1.trace =
        [⟨0, 0, EV_REL, REL_X, -1⟩,
         ⟨0, 0, EV_REL, REL_Y, 2⟩,
         ⟨0, 0, EV_SYN, SYN_REPORT, 0⟩] ∧
      (move_relative_ allWritesOk initState (-3) 3).2 = Except.ok () := by
  have h := move_relative_emits_ceiling_halves (-3) 3 (by decide) (by decide)
  have e1 : ⌈((-3 : Int) : ℚ) / 2⌉ = -1 := by
    rw [Int.ceil_eq_iff]
    norm_num
  have e2 : ⌈((3 : Int) : ℚ) / 2⌉ = 2 := by
    rw [Int.ceil_eq_iff]
    norm_num
  rw [e1, e2] at h
  exact h

/-- C1 counterexample: at dx = 2^25 + 1 = 33554433 the emitted relative-X
value is 16777216, but ⌈dx / 2⌉ = 16777217 — the i32-to-f32 conversion
inside move_relative_ rounds the delta to 33554432 before halving. -/
theorem move_relative_large_delta_not_ceiling :
    moveRelUnit 33554433 = 16777216 ∧
      ⌈((33554433 : Int) : ℚ) / 2⌉ = 16777217 ∧
      (move_relative_ allWritesOk initState 33554433 0).1.trace.map InputEvent.value =
        [16777216, 0, 0] := by
  refine ⟨by decide, ?_, by decide⟩
  rw [Int.ceil_eq_iff]
  norm_num


/-- C2 counterexample: get_position on the uinput backend does not return a
typed error value at all — there is no IoError e with
get_position = returned (error e), because the body panics. -/
theorem get_position_returns_no_typed_error :
    ¬ ∃ e : IoError, get_position = PanicOr.returned (Except.error e) := by
  rintro ⟨e, h⟩
  simp [get_position] at h

/-- C2 (amended): get_position on the uinput backend never returns a
coordinate value — but instead of failing with a typed unsupported-
operation error, its body is unimplemented!(), so every call diverges
with a "not implemented" panic and no Result value of either kind is
ever returned to the caller. -/
theorem get_position_panics :
    get_position = PanicOr.panicked "not implemented" ∧
      ∀ v : Except IoError (Int × Int), get_position ≠ PanicOr.returned v := by
  refine ⟨rfl, ?_⟩
  intro v h
  simp [get_position] at h

/-- C3: click_button is press followed immediately by release: on the
success path it emits exactly two key events for the button's mapped code
with values 1 then 0, each followed by a sync-report event; and when the
press succeeds but the release write fails, the error is propagated and
the trace stops at the failed release write — no compensating release is
attempted. -/
theorem click_button_press_then_release (b : MouseButton) :
    ((click_button allWritesOk initState b).1.trace =
        [⟨0, 0, EV_KEY, map_btn b, 1⟩, ⟨0, 0, EV_SYN, SYN_REPORT, 0⟩,
         ⟨0, 0, EV_KEY, map_btn b, 0⟩, ⟨0, 0, EV_SYN, SYN_REPORT, 0⟩] ∧
      (click_button allWritesOk initState b).2 = Except.ok ()) ∧
    ((click_button failThirdWrite initState b).2 =
        Except.error ⟨ErrKind.other, "failed while trying to write to a file"⟩ ∧
      (click_button failThirdWrite initState b).1.trace =
        [⟨0, 0, EV_KEY, map_btn b, 1⟩, ⟨0, 0, EV_SYN, SYN_REPORT, 0⟩,
         ⟨0, 0, EV_KEY, map_btn b, 0⟩]) := by
  cases b <;> exact ⟨⟨rfl, rfl⟩, rfl, rfl⟩


/-- List.lookup on the spec's known-button table, as an if-chain. -/
theorem specLookup_eq (c : Nat) :
    List.lookup c specKnownButtons =
      if c = 0x110 then some MouseButton.left
      else if c = 0x111 then some MouseButton.right
      else if c = 0x112 then some MouseButton.middle
      else none := by
  unfold specKnownButtons
  by_cases h2 : c = 0x110
  · subst h2; rfl
  · have b2 : (c == 0x110) = false := by simpa using h2
    by_cases h3 : c = 0x111
    · subst h3; rfl
    · have b3 : (c == 0x111) = false := by simpa using h3
      by_cases h4 : c = 0x112
      · subst h4; rfl
      · have b4 : (c == 0x112) = false := by simpa using h4
        simp [List.lookup, b2, b3, b4, h2, h3, h4]

/-- C4: the dispatcher's classification of raw kernel events agrees with the
spec's table — a key event whose code maps to a known button becomes Press
when the value is 1 and Release for any other value, a relative event on
the wheel / horizontal-wheel / X / Y axes becomes the corresponding Scroll
or RelativeMove, and key events with unknown codes, relative events with
unknown codes, and events of any other category are discarded without
invoking any callback. -/
theorem dispatch_agrees_with_spec (received : InputEvent) :
    dispatchEvent received = specClassify received ∧
      (dispatchEvent received = none →
        ∀ callbacks : List (Nat × Unit), dispatchInvocations callbacks received = []) := by
  constructor
  · unfold dispatchEvent specClassify
    rw [specLookup_eq]
    by_cases h1 : received.etype = 0x01
    · by_cases h2 : received.code = 0x110
      · simp [h1, h2, EV_KEY, BTN_LEFT]
      · by_cases h3 : received.code = 0x111
        · simp [h1, h2, h3, EV_KEY, BTN_LEFT, BTN_RIGHT]
        · by_cases h4 : received.code = 0x112
          · simp [h1, h2, h3, h4, EV_KEY, BTN_LEFT, BTN_RIGHT, BTN_MIDDLE]
          · simp [h1, h2, h3, h4, EV_KEY, BTN_LEFT, BTN_RIGHT, BTN_MIDDLE]
    · simp [h1, EV_KEY]
  · intro hnone callbacks
    unfold dispatchInvocations
    rw [hnone]


/-- Occurrence count of a path in the dedup loop's output: zero if already
seen, else one per membership in the remaining glob matches. -/
theorem dedupLoop_count (l : List String) :
    ∀ (seen : List String) (p : String),
      (dedupLoop seen l).count p =
        if p ∈ seen then 0 else if p ∈ l then 1 else 0 := by
  induction l with
  | nil => intro seen p; simp [dedupLoop]
  | cons path rest ih =>
    intro seen p
    unfold dedupLoop
    by_cases hps : path ∈ seen
    · rw [if_pos hps, ih seen p]
      by_cases hp : p ∈ seen
      · simp [hp]
      · have hne : ¬p = path := fun h => hp (h ▸ hps)
        simp [hp, hne]
    · rw [if_neg hps]
      by_cases hpp : p = path
      · subst hpp
        have hmem : p ∈ seen ++ [p] := by simp
        rw [List.count_cons_self, ih (seen ++ [p]) p]
        simp [hps, hmem]
      · rw [List.count_cons_of_ne hpp, ih (seen ++ [path]) p]
        by_cases hp : p ∈ seen
        · have hm : p ∈ seen ++ [path] := by simp [hp]
          simp [hp, hm]
        · have hm : p ∉ seen ++ [path] := by simp [hp, hpp]
          simp [hp, hm, hpp]

/-- C5: during device discovery, any two resolved glob matches that are the
same canonical device path lead to exactly one device-file open and one
reader worker — for every canonical path occurring among the resolved
matches, the list of devices actually opened contains it exactly once. -/
theorem discovery_opens_each_device_once (paths : List String) (p : String)
    (hp : p ∈ paths) : (discoveredDevices paths).count p = 1 := by
  unfold discoveredDevices
  rw [dedupLoop_count]
  simp [hp]

/-- C5 witness: a by-id match and a by-path match resolving to the same
canonical path yield one opened device. -/
theorem discovery_opens_each_device_once_witness :
    (discoveredDevices ["/dev/input/event7", "/dev/input/event7"]).count
      "/dev/input/event7" = 1 :=
  discovery_opens_each_device_once ["/dev/input/event7", "/dev/input/event7"]
    "/dev/input/event7" (by simp)


/-- C6: from a not-yet-listening state, under a start oracle that lets the
listener start succeed, the first hook call starts the machinery (exactly
one more successful listener start) and the second call starts nothing
further; each successful call returns the next unused monotonically
increasing id — the first returns the current counter, the second returns
its successor — and bumps the counter by one. -/
theorem hook_starts_once_and_returns_fresh_ids (startOk : Nat → Bool)
    (s : ListenerState Unit) (h : s.is_listening = false)
    (hok : startOk s.startCalls = true) :
    (hook startOk s ()).1.startedListeners = s.startedListeners + 1 ∧
    (hook startOk s ()).1.is_listening = true ∧
    (hook startOk s ()).2 = Except.ok s.callback_counter ∧
    (hook startOk s ()).1.callback_counter = s.callback_counter + 1 ∧
    (hook startOk (hook startOk s ()).1 ()).1.startedListeners = s.startedListeners + 1 ∧
    (hook startOk (hook startOk s ()).1 ()).2 = Except.ok (s.callback_counter + 1) ∧
    (hook startOk (hook startOk s ()).1 ()).1.callback_counter = s.callback_counter + 2 := by
  have hfst : hook startOk s () =
      ({ s with startCalls := s.startCalls + 1,
                startedListeners := s.startedListeners + 1,
                is_listening := true,
                callbacks := mapInsert s.callbacks s.callback_counter (),
                callback_counter := s.callback_counter + 1 },
       Except.ok s.callback_counter) := by
    simp [hook, h, hok]
  rw [hfst]
  simp [hook, mapInsert]

/-- C6 witness: two hook calls from the freshly constructed manager state,
with a start oracle that always succeeds. -/
theorem hook_starts_once_and_returns_fresh_ids_witness :
    (hook (fun _ => true) (initListener Unit) ()).1.startedListeners =
        (initListener Unit).startedListeners + 1 ∧
    (hook (fun _ => true) (initListener Unit) ()).1.is_listening = true ∧
    (hook (fun _ => true) (initListener Unit) ()).2 =
        Except.ok (initListener Unit).callback_counter ∧
    (hook (fun _ => true) (initListener Unit) ()).1.callback_counter =
        (initListener Unit).callback_counter + 1 ∧
    (hook (fun _ => true) (hook (fun _ => true) (initListener Unit) ()).1 ()).1.startedListeners =
        (initListener Unit).startedListeners + 1 ∧
    (hook (fun _ => true) (hook (fun _ => true) (initListener Unit) ()).1 ()).2 =
        Except.ok ((initListener Unit).callback_counter + 1) ∧
    (hook (fun _ => true) (hook (fun _ => true) (initListener Unit) ()).1 ()).1.callback_counter =
        (initListener Unit).callback_counter + 2 :=
  hook_starts_once_and_returns_fresh_ids (fun _ => true) (initListener Unit) rfl rfl

/-- C7: unhook on a registered id succeeds and removes the callback so the
dispatcher no longer invokes it on any dispatched event; unhook on an
unregistered id fails with a NotFound error naming the id; unhook_all
clears every registered callback and always succeeds. -/
theorem unhook_removes_and_unhook_all_clears (s : ListenerState Unit) (cid : Nat) :
    (cid ∈ s.callbacks.map (fun p => p.1) →
      (unhook s cid).2 = Except.ok () ∧
        ∀ received : InputEvent,
          cid ∉ dispatchInvocations (unhook s cid).1.callbacks received) ∧
    (cid ∉ s.callbacks.map (fun p => p.1) →
      (unhook s cid).2 =
        Except.error ⟨ErrKind.notFound, "callback id " ++ toString cid ++ " not found"⟩) ∧
    ((unhook_all s).2 = Except.ok () ∧ (unhook_all s).1.callbacks = []) := by
  refine ⟨?_, ?_, rfl, rfl⟩
  · intro hin
    have hany : s.callbacks.any (fun p => p.1 == cid) = true := by
      simp only [List.any_eq_true, beq_iff_eq]
      rcases List.mem_map.mp hin with ⟨q, hq, hq1⟩
      exact ⟨q, hq, hq1⟩
    constructor
    · simp [unhook, hany]
    · intro received
      unfold dispatchInvocations
      cases dispatchEvent received with
      | none => simp
      | some ev =>
        simp only [unhook, hany, if_true]
        simp [List.mem_map, List.mem_filter]
  · intro hout
    have hany : s.callbacks.any (fun p => p.1 == cid) = false := by
      simp only [List.any_eq_false, beq_iff_eq]
      intro q hq hq1
      exact hout (List.mem_map.mpr ⟨q, hq, hq1⟩)
    simp [unhook, hany]

/-- C7 witness: in a registry holding one callback under id 0, unhook 0
succeeds and id 0 receives nothing afterwards; unhook 1 fails with a
NotFound error; unhook_all clears the registry. -/
theorem unhook_removes_and_unhook_all_clears_witness :
    ((unhook (⟨true, 1, [(0, ())], 1, 1⟩ : ListenerState Unit) 0).2 = Except.ok () ∧
      ∀ received : InputEvent,
        0 ∉ dispatchInvocations
            (unhook (⟨true, 1, [(0, ())], 1, 1⟩ : ListenerState Unit) 0).1.callbacks
            received) ∧
    (unhook (⟨true, 1, [(0, ())], 1, 1⟩ : ListenerState Unit) 1).2 =
      Except.error ⟨ErrKind.notFound, "callback id " ++ toString 1 ++ " not found"⟩ ∧
    (unhook_all (⟨true, 1, [(0, ())], 1, 1⟩ : ListenerState Unit)).2 = Except.ok () ∧
    (unhook_all (⟨true, 1, [(0, ())], 1, 1⟩ : ListenerState Unit)).1.callbacks = [] :=
  ⟨(unhook_removes_and_unhook_all_clears ⟨true, 1, [(0, ())], 1, 1⟩ 0).1 (by decide),
   (unhook_removes_and_unhook_all_clears ⟨true, 1, [(0, ())], 1, 1⟩ 1).2.1 (by decide),
   (unhook_removes_and_unhook_all_clears ⟨true, 1, [(0, ())], 1, 1⟩ 0).2.2⟩


/-- C8: emit hands exactly one fixed-size record to the write syscall per
call; the call fails with the write error exactly when the write returns
-1 or a byte count different from the record size — a negative return or
short write is surfaced to the caller, and a full-size write succeeds. -/
theorem emit_one_write_and_error_contract (writeRet : Nat → Int) (s : EmuState)
    (t c : Nat) (v : Int) :
    (emit writeRet s t c v).1.trace = s.trace ++ [⟨0, 0, t, c, v⟩] ∧
    (emit writeRet s t c v).1.writeIdx = s.writeIdx + 1 ∧
    ((emit writeRet s t c v).2 = Except.ok () ↔ writeRet s.writeIdx = recordSize) ∧
    (writeRet s.writeIdx < 0 ∨ writeRet s.writeIdx ≠ recordSize →
      (emit writeRet s t c v).2 =
        Except.error ⟨ErrKind.other, "failed while trying to write to a file"⟩) := by
  unfold emit
  by_cases hw : writeRet s.writeIdx = -1 ∨ writeRet s.writeIdx ≠ recordSize
  · rw [if_pos hw]
    refine ⟨rfl, rfl, ?_, fun _ => rfl⟩
    constructor
    · intro h
      cases h
    · intro h
      exfalso
      rcases hw with h1 | h1
      · rw [h] at h1
        simp [recordSize] at h1
      · exact h1 h
  · rw [if_neg hw]
    push_neg at hw
    refine ⟨rfl, rfl, ?_, ?_⟩
    · simp [hw.2]
    · intro h
      rcases h with h1 | h1
      · exfalso
        rw [hw.2] at h1
        simp [recordSize] at h1
      · exact absurd hw.2 h1

/-- C8 witness: a failing write (-1 return) surfaces the error while still
recording exactly one attempted write of the record. -/
theorem emit_one_write_and_error_contract_witness :
    (emit (fun _ => -1) initState EV_KEY BTN_LEFT 1).1.trace =
        initState.trace ++ [⟨0, 0, EV_KEY, BTN_LEFT, 1⟩] ∧
    (emit (fun _ => -1) initState EV_KEY BTN_LEFT 1).1.writeIdx =
        initState.writeIdx + 1 ∧
    ((emit (fun _ => -1) initState EV_KEY BTN_LEFT 1).2 = Except.ok () ↔
        (fun _ => (-1 : Int)) initState.writeIdx = recordSize) ∧
    (emit (fun _ => -1) initState EV_KEY BTN_LEFT 1).2 =
        Except.error ⟨ErrKind.other, "failed while trying to write to a file"⟩ := by
  have h := emit_one_write_and_error_contract (fun _ => -1) initState EV_KEY BTN_LEFT 1
  exact ⟨h.1, h.2.1, h.2.2.1, h.2.2.2 (by decide)⟩

/-- C9: for every write oracle and every sequence of emit requests — in
particular when some emit failed — the manager's kernel-facing lifetime
trace ends with the device-destroy ioctl immediately followed by the close
of the control descriptor, and neither action occurs anywhere earlier: the
destroy request is always issued, and issued before the descriptor closes. -/
theorem teardown_destroys_before_close (writeRet : Nat → Int)
    (cmds : List (Nat × Nat × Int)) :
    ∃ writes : List SysAction,
      sessionTrace writeRet cmds =
          writes ++ [SysAction.ioctlDevDestroy, SysAction.closeFile] ∧
        SysAction.ioctlDevDestroy ∉ writes ∧ SysAction.closeFile ∉ writes := by
  refine ⟨(runEmits writeRet initState cmds).trace.map SysAction.writeEv, rfl, ?_, ?_⟩
  · simp [List.mem_map]
  · simp [List.mem_map]

/-- C10: construction registers key capabilities for exactly the three codes
0x110 (Left), 0x111 (Right) and 0x112 (Middle), while map_btn — used by
press_button, release_button and click_button — accepts all eight button
variants and maps the remaining five (Side, Extra, Forward, Back, Task) to
codes 0x113 through 0x117, none of which was registered as a capability. -/
theorem capability_bits_miss_five_buttons (rng_x rng_y : Int × Int) :
    registeredKeyCodes (newIoctls rng_x rng_y) = [BTN_LEFT, BTN_RIGHT, BTN_MIDDLE] ∧
    allButtons.length = 8 ∧
    allButtons.filter
        (fun b => !(registeredKeyCodes (newIoctls rng_x rng_y)).contains (map_btn b)) =
      [MouseButton.side, MouseButton.extra, MouseButton.forward,
       MouseButton.back, MouseButton.task] ∧
    (allButtons.filter
        (fun b => !(registeredKeyCodes (newIoctls rng_x rng_y)).contains (map_btn b))).length
      = 5 ∧
    map_btn MouseButton.side = 0x113 ∧ map_btn MouseButton.task = 0x117 := by
  exact ⟨rfl, rfl, rfl, rfl, rfl, rfl⟩

end Mouce
